import Mathlib

/-!
Verification of the blogicum blog application's view layer
(`src/blogicum/blog/views.py`) against its natural-language specification.

The data model (User, Category, Post, Comment) is embedded as plain
structures over `Nat`/`String`; the database is a record of lists.  Each
view's queryset / object-resolution / mutation logic is translated into a
pure Lean function over an explicit database value.  HTTP outcomes are an
inductive `Response` type: `none` on an `Option` result, or
`Response.notFound`, stands for an HTTP 404.

The repository files `blog/utils.py`, `blog/mixins.py`, `blog/forms.py` and
`blog/models.py` are not available; where a definition depends on them it is
modelled from the spec and says so in its doc comment.  Everything else is a
direct translation of `views.py`.
-/

namespace Blogicum

structure User where
  id : Nat
  username : String
deriving DecidableEq

structure Category where
  id : Nat
  slug : String
  is_published : Bool
deriving DecidableEq

structure Post where
  id : Nat
  author_id : Nat
  category_id : Nat
  pub_date : Nat
  is_published : Bool
deriving DecidableEq

structure Comment where
  id : Nat
  author_id : Nat
  post_id : Nat
  text : String
  is_published : Bool
deriving DecidableEq

/-- The persistent state: one list per model, standing for the ORM tables. -/
structure DB where
  users : List User
  categories : List Category
  posts : List Post
  comments : List Comment
deriving DecidableEq

/-- `Post.objects.get(pk=pid)` resolved against the posts table. -/
def postById (db : DB) (pid : Nat) : Option Post :=
  db.posts.find? (fun p => p.id == pid)

/-- `Comment.objects.get(pk=cid)` resolved against the comments table. -/
def commentById (db : DB) (cid : Nat) : Option Comment :=
  db.comments.find? (fun c => c.id == cid)

/-- `get_object_or_404(User, username=uname)` resolved against the users table. -/
def userByUsername (db : DB) (uname : String) : Option User :=
  db.users.find? (fun u => u.username == uname)

/-- Foreign-key dereference `post.category`. -/
def categoryById (db : DB) (cid : Nat) : Option Category :=
  db.categories.find? (fun c => c.id == cid)

/-- Modelled from the spec: `get_post_queryset` lives in `blog/utils.py`,
which is not among the available sources.  The spec calls it "a single
predicate combining category/publish flags and date cutoff": a post is
publicly visible exactly when its own `is_published` flag holds, its
category's `is_published` flag holds, and its publication date is not in
the future.  Time is a `Nat` timestamp `now`. -/
def publiclyVisible (db : DB) (now : Nat) (p : Post) : Bool :=
  p.is_published &&
    (match categoryById db p.category_id with
     | some c => c.is_published
     | none => false) &&
    decide (p.pub_date ≤ now)

/-- Modelled from the spec: the missing `get_post_queryset` filters the given
manager (a list of posts) by the public-visibility predicate when
`filter_published` is set, and returns the manager unchanged otherwise.
The comment-count annotation it can also attach is modelled separately
(`profileCommentCount`), as no claim depends on it here. -/
def get_post_queryset (db : DB) (now : Nat) (manager : List Post)
    (filter_published : Bool) : List Post :=
  if filter_published then manager.filter (publiclyVisible db now) else manager

/-- A requester: `some uid` for an authenticated user, `none` for the
anonymous user (Django's `AnonymousUser`, equal to no `User` row). -/
abbrev Requester := Option Nat

/-- `PostDetailView.get_object`: fetch the post unfiltered (404 when the pk
does not exist); when the requester is not the post's author, re-fetch it
through the published-only queryset (404 when the post is not publicly
visible).  `none` stands for HTTP 404. -/
def postDetailGetObject (db : DB) (now : Nat) (requester : Requester)
    (post_id : Nat) : Option Post :=
  match (get_post_queryset db now db.posts false).find? (fun p => p.id == post_id) with
  | none => none
  | some post =>
      if requester = some post.author_id then some post
      else (get_post_queryset db now db.posts true).find? (fun p => p.id == post_id)

/-- `PostDetailView.get_context_data`: the rendered comment list is
`self.object.comments.filter(is_published=True)` — the post's comments
with the published flag set, independent of who the requester is. -/
def postDetailComments (db : DB) (post : Post) : List Comment :=
  (db.comments.filter (fun c => c.post_id == post.id)).filter
    (fun c => c.is_published)

/-- `CategoryPostListView.get_queryset`:
`get_object_or_404(Category, slug=..., is_published=True)` then the
published-only queryset over the category's posts.  `none` is HTTP 404. -/
def categoryGetQueryset (db : DB) (now : Nat) (slug : String) :
    Option (List Post) :=
  match db.categories.find? (fun c => c.slug == slug && c.is_published) with
  | none => none
  | some cat =>
      some (get_post_queryset db now
        (db.posts.filter (fun p => p.category_id == cat.id)) true)

/-- `ProfileView.get_queryset`: 404 on an unknown username; otherwise the
profiled user's posts, published-only unless the requester is that user
(`filter_published = not request.user.is_authenticated or request.user != user`). -/
def profileGetQueryset (db : DB) (now : Nat) (requester : Requester)
    (username : String) : Option (List Post) :=
  match userByUsername db username with
  | none => none
  | some u =>
      let fp : Bool :=
        match requester with
        | none => true
        | some r => decide (¬ r = u.id)
      some (get_post_queryset db now
        (db.posts.filter (fun p => p.author_id == u.id)) fp)

/-- Django's `aggregate(Sum(...))` over a queryset: `None` when the queryset
has no rows, otherwise the sum of the annotated values. -/
def aggregateSum : List Nat → Option Nat
  | [] => none
  | l => some l.sum

/-- `ProfileView.get_context_data`'s `comment_count`: annotate each of the
user's posts with `Count("comments", filter=Q(comments__is_published=True))`
and aggregate with `Sum`. -/
def profileCommentCount (db : DB) (u : User) : Option Nat :=
  aggregateSum
    ((db.posts.filter (fun p => p.author_id == u.id)).map
      (fun p => ((db.comments.filter (fun c => c.post_id == p.id)).filter
        (fun c => c.is_published)).length))

/-- HTTP outcomes of the mutation views.  `redirectLogin` is the
`LoginRequiredMixin` redirect for anonymous requesters; `permissionDenied`
is Django's `PermissionDenied` (HTTP 403) raised by the default
`AccessMixin.handle_no_permission` for an authenticated requester. -/
inductive Response where
  | success
  | redirectLogin
  | redirectPostDetail (post_id : Nat)
  | redirectProfile (username : String)
  | permissionDenied
  | notFound
deriving DecidableEq

/-- `CreatePostView.form_valid`: save the form with `commit=False`, force
`post.author = request.user`, save, redirect to the requester's profile.
The form's output is modelled as an arbitrary `Post` value `formPost`,
whatever author it may carry. -/
def createPost (db : DB) (requester : Requester) (formPost : Post) :
    DB × Response :=
  match requester with
  | none => (db, .redirectLogin)
  | some r =>
      ({ db with posts := db.posts ++ [{ formPost with author_id := r }] },
       .redirectProfile ((db.users.find? (fun u => u.id == r)).elim ""
         (fun u => u.username)))

/-- `EditPostView`: login required; `AuthorRequiredMixin.test_func` compares
`obj.author == request.user`; on denial its `handle_no_permission` override
redirects to the post's detail page; on success the validated form data
(modelled as an arbitrary update function) is saved onto the instance. -/
def editPost (db : DB) (requester : Requester) (post_id : Nat)
    (edit : Post → Post) : DB × Response :=
  match requester with
  | none => (db, .redirectLogin)
  | some r =>
      match postById db post_id with
      | none => (db, .notFound)
      | some post =>
          if post.author_id = r then
            ({ db with posts := db.posts.map (fun p => if p.id == post_id then edit p else p) },
             .success)
          else (db, .redirectPostDetail post_id)

/-- `DeletePostView`: login required; author required; it overrides neither
`handle_no_permission` (so an authenticated non-author gets the
`AccessMixin` default, `PermissionDenied`) nor the deletion itself; on
success it redirects to the requester's profile. -/
def deletePost (db : DB) (requester : Requester) (post_id : Nat) :
    DB × Response :=
  match requester with
  | none => (db, .redirectLogin)
  | some r =>
      match postById db post_id with
      | none => (db, .notFound)
      | some post =>
          if post.author_id = r then
            ({ db with posts := db.posts.filter (fun p => !(p.id == post_id)) },
             .redirectProfile ((db.users.find? (fun u => u.id == r)).elim ""
               (fun u => u.username)))
          else (db, .permissionDenied)

/-- Modelled from the spec: `CommentMixin` lives in `blog/mixins.py`, which
is not among the available sources.  The glossary names it the
comment-target-resolution mixin, and the error-handling section says a
non-author's mutation attempt redirects to the resource's detail page; so
the mixin resolves the target comment from the URL keyword arguments and
redirects to the enclosing post's detail page both on success and on
permission denial.  The author test itself is
`AuthorRequiredMixin.test_func` from `views.py`. -/
def editComment (db : DB) (requester : Requester) (post_id comment_id : Nat)
    (edit : Comment → Comment) : DB × Response :=
  match requester with
  | none => (db, .redirectLogin)
  | some r =>
      match commentById db comment_id with
      | none => (db, .notFound)
      | some c =>
          if c.author_id = r then
            ({ db with comments := db.comments.map (fun x => if x.id == comment_id then edit x else x) },
             .redirectPostDetail post_id)
          else (db, .redirectPostDetail post_id)

/-- Modelled from the spec, exactly as `editComment`: `DeleteCommentView`
through the missing `CommentMixin`. -/
def deleteComment (db : DB) (requester : Requester) (post_id comment_id : Nat) :
    DB × Response :=
  match requester with
  | none => (db, .redirectLogin)
  | some r =>
      match commentById db comment_id with
      | none => (db, .notFound)
      | some c =>
          if c.author_id = r then
            ({ db with comments := db.comments.filter (fun x => !(x.id == comment_id)) },
             .redirectPostDetail post_id)
          else (db, .redirectPostDetail post_id)

/-- `AddCommentView.form_valid`: login required;
`get_object_or_404(Post, id=post_id)` — the plain manager, with no
visibility filtering — then the form's comment (modelled as an arbitrary
`Comment` value) is saved with its `post` and `author` fields forced, and
the response redirects to the post's detail page. -/
def addComment (db : DB) (requester : Requester) (post_id : Nat)
    (formComment : Comment) : DB × Response :=
  match requester with
  | none => (db, .redirectLogin)
  | some r =>
      match postById db post_id with
      | none => (db, .notFound)
      | some post =>
          ({ db with comments := db.comments ++ [{ formComment with post_id := post.id, author_id := r }] },
           .redirectPostDetail post_id)

/-! Concrete fixtures used by the witness and counterexample theorems:
two users, a published and an unpublished category, three posts (one
published, one with `is_published = false`, one in an unpublished category
with a future publication date relative to `now = 50`), and three comments
on the first post (one of them unpublished). -/

def u1W : User := { id := 1, username := "alice" }

def u2W : User := { id := 2, username := "bob" }

def cat1W : Category := { id := 1, slug := "tech", is_published := true }

def cat2W : Category := { id := 2, slug := "hidden", is_published := false }

def p1W : Post := { id := 1, author_id := 1, category_id := 1, pub_date := 10, is_published := true }

def p2W : Post := { id := 2, author_id := 1, category_id := 1, pub_date := 10, is_published := false }

def p3W : Post := { id := 3, author_id := 2, category_id := 2, pub_date := 100, is_published := true }

def c1W : Comment := { id := 1, author_id := 2, post_id := 1, text := "nice post", is_published := true }

def c2W : Comment := { id := 2, author_id := 2, post_id := 1, text := "my draft", is_published := false }

def c3W : Comment := { id := 3, author_id := 1, post_id := 1, text := "thanks", is_published := true }

def cFormW : Comment := { id := 9, author_id := 777, post_id := 888, text := "hello", is_published := true }

def pFormW : Post := { id := 9, author_id := 777, category_id := 1, pub_date := 10, is_published := true }

def dbW : DB := { users := [u1W, u2W], categories := [cat1W, cat2W], posts := [p1W, p2W, p3W], comments := [c1W, c2W, c3W] }

/-- C1: an edit-post, delete-post, edit-comment or delete-comment request
whose requester is not the author of the targeted post (resp. comment)
leaves the database unchanged: the object is modified or deleted only by
its author. -/
theorem c1_mutation_only_by_author (db : DB) (r : Requester)
    (pid cid kpid : Nat) (f : Post → Post) (g : Comment → Comment)
    (post : Post) (c : Comment)
    (hp : postById db pid = some post) (hpa : r ≠ some post.author_id)
    (hc : commentById db cid = some c) (hca : r ≠ some c.author_id) :
    (editPost db r pid f).fst = db ∧ (deletePost db r pid).fst = db ∧
    (editComment db r kpid cid g).fst = db ∧
    (deleteComment db r kpid cid).fst = db := by
  cases r with
  | none => simp [editPost, deletePost, editComment, deleteComment]
  | some u =>
      have hu : ¬ post.author_id = u := fun h => hpa (by rw [h])
      have hcu : ¬ c.author_id = u := fun h => hca (by rw [h])
      refine ⟨?_, ?_, ?_, ?_⟩ <;>
        simp [editPost, deletePost, editComment, deleteComment, hp, hc, hu, hcu]

/-- C1 witness: user 2 attacks post 1 and comment 3, both authored by
user 1; nothing changes. -/
theorem c1_witness :
    (editPost dbW (some 2) 1 id).fst = dbW ∧
    (deletePost dbW (some 2) 1).fst = dbW ∧
    (editComment dbW (some 2) 1 3 id).fst = dbW ∧
    (deleteComment dbW (some 2) 1 3).fst = dbW :=
  c1_mutation_only_by_author dbW (some 2) 1 3 1 id id p1W c3W (by decide)
    (by decide) (by decide) (by decide)

/-- C2: the author of a post always gets it back from the post-detail view,
and always sees all of their own posts on their profile page, with no
visibility hypothesis: the post may be unpublished, in an unpublished
category, or dated in the future. -/
theorem c2_author_sees_own_content (db : DB) (now : Nat) (pid : Nat)
    (post : Post) (uname : String) (u : User)
    (hp : postById db pid = some post)
    (hu : userByUsername db uname = some u) :
    postDetailGetObject db now (some post.author_id) pid = some post ∧
    profileGetQueryset db now (some u.id) uname =
      some (db.posts.filter (fun p => p.author_id == u.id)) := by
  constructor
  · simp only [postDetailGetObject, get_post_queryset, if_false, Bool.false_eq_true, ite_false]
    rw [show (db.posts.find? fun p => p.id == pid) = some post from hp]
    simp
  · simp only [profileGetQueryset, hu, get_post_queryset]
    simp

/-- C2 witness: post 2 has `is_published = false`, yet its author (user 1)
retrieves it from the detail view; user 1's profile page, requested by
user 1, lists both their posts including the unpublished one. -/
theorem c2_witness :
    postDetailGetObject dbW 50 (some p2W.author_id) 2 = some p2W ∧
    profileGetQueryset dbW 50 (some u1W.id) "alice" =
      some (dbW.posts.filter (fun p => p.author_id == u1W.id)) :=
  c2_author_sees_own_content dbW 50 2 p2W "alice" u1W (by decide) (by decide)

/-- C3 counterexample: comment 2 on post 1 belongs to user 2 and is
unpublished; the post-detail comment list omits it.  The list is computed
by `postDetailComments`, which takes no requester at all, so it omits the
comment in particular when the requester is its author, user 2. -/
theorem c3_counterexample :
    c2W ∈ dbW.comments ∧ c2W.post_id = p1W.id ∧ c2W.is_published = false ∧
    c2W ∉ postDetailComments dbW p1W := by decide

/-- C3 amended: the post-detail comment list contains exactly the post's
comments whose `is_published` flag is set, for every requester; an
author's own unpublished comments are excluded like anyone else's. -/
theorem c3_comment_list_published_only (db : DB) (post : Post) (c : Comment) :
    c ∈ postDetailComments db post ↔
      c ∈ db.comments ∧ c.post_id = post.id ∧ c.is_published = true := by
  simp only [postDetailComments, List.mem_filter, beq_iff_eq]
  tauto

/-- C4: a requester other than the author asking for a post that fails the
public-visibility predicate gets HTTP 404 (modelled as `none`), assuming
post ids are unique as primary keys are. -/
theorem c4_hidden_post_is_404 (db : DB) (now : Nat) (r : Requester)
    (pid : Nat) (post : Post)
    (hwf : (db.posts.map Post.id).Nodup)
    (hp : postById db pid = some post)
    (hr : r ≠ some post.author_id)
    (hvis : publiclyVisible db now post = false) :
    postDetailGetObject db now r pid = none := by
  have hp' : db.posts.find? (fun p => p.id == pid) = some post := hp
  have hmem : post ∈ db.posts := List.mem_of_find?_eq_some hp'
  have hpid : post.id = pid := by simpa using List.find?_some hp'
  simp only [postDetailGetObject, get_post_queryset, if_false, Bool.false_eq_true, ite_false,
    ite_true, hp']
  rw [if_neg hr]
  rw [List.find?_eq_none]
  intro q hq
  have hq' := List.mem_filter.mp hq
  simp only [beq_iff_eq]
  intro hqid
  have : q = post := List.inj_on_of_nodup_map hwf hq'.left hmem (by rw [hqid, hpid])
  rw [this] at hq'
  rw [hvis] at hq'
  exact Bool.false_ne_true hq'.right

/-- C4 witness: post 2 is unpublished and authored by user 1; user 2
requesting it gets 404. -/
theorem c4_witness : postDetailGetObject dbW 50 (some 2) 2 = none :=
  c4_hidden_post_is_404 dbW 50 (some 2) 2 p2W (by decide) (by decide)
    (by decide) (by decide)

/-- C5: whenever the category page resolves (the slug names a published
category), every post in the returned list has `is_published = true`; the
queryset does not depend on the requester, so in particular an
unauthenticated user never receives an unpublished post. -/
theorem c5_category_lists_published_only (db : DB) (now : Nat) (slug : String)
    (l : List Post) (p : Post)
    (h : categoryGetQueryset db now slug = some l) (hp : p ∈ l) :
    p.is_published = true := by
  unfold categoryGetQueryset at h
  cases hfind : db.categories.find? (fun c => c.slug == slug && c.is_published) with
  | none => rw [hfind] at h; exact absurd h (by simp)
  | some cat =>
      rw [hfind] at h
      simp only [Option.some.injEq] at h
      rw [← h] at hp
      unfold get_post_queryset at hp
      simp only [ite_true] at hp
      have := (List.mem_filter.mp hp).right
      unfold publiclyVisible at this
      exact (Bool.and_eq_true .. ▸ (Bool.and_eq_true .. ▸ this).left).left

/-- C5 witness: the "tech" category page returns exactly the published,
non-future post 1, and its flag is set. -/
theorem c5_witness : p1W.is_published = true :=
  c5_category_lists_published_only dbW 50 "tech" [p1W] p1W (by decide) (by decide)

/-- C6 counterexample: authenticated user 2 attempts to delete post 1,
whose author is user 1.  `DeletePostView` overrides no
`handle_no_permission`, so the response is `PermissionDenied` (HTTP 403),
not a redirect to the post's detail page. -/
theorem c6_counterexample :
    postById dbW 1 = some p1W ∧ p1W.author_id = 1 ∧
    (some 2 : Requester) ≠ some 1 ∧
    (deletePost dbW (some 2) 1).snd = Response.permissionDenied ∧
    Response.permissionDenied ≠ Response.redirectPostDetail 1 := by decide

/-- C6 amended: a mutation request by an authenticated non-author redirects
to the resource's detail page for edit-post, edit-comment and
delete-comment; delete-post alone answers `PermissionDenied` (HTTP 403)
because `DeletePostView` keeps the default `handle_no_permission`. -/
theorem c6_non_author_mutation_responses (db : DB) (r : Nat)
    (pid cid kpid : Nat) (f : Post → Post) (g : Comment → Comment)
    (post : Post) (c : Comment)
    (hp : postById db pid = some post) (hpa : post.author_id ≠ r)
    (hc : commentById db cid = some c) (hca : c.author_id ≠ r) :
    (editPost db (some r) pid f).snd = Response.redirectPostDetail pid ∧
    (deletePost db (some r) pid).snd = Response.permissionDenied ∧
    (editComment db (some r) kpid cid g).snd = Response.redirectPostDetail kpid ∧
    (deleteComment db (some r) kpid cid).snd = Response.redirectPostDetail kpid := by
  refine ⟨?_, ?_, ?_, ?_⟩ <;>
    simp [editPost, deletePost, editComment, deleteComment, hp, hc, hpa, hca]

/-- C6 witness: user 2 against post 1 and comment 3 (both authored by
user 1): edit-post redirects to the post detail page, delete-post yields
`PermissionDenied`, and both comment mutations redirect to the post
detail page. -/
theorem c6_witness :
    (editPost dbW (some 2) 1 id).snd = Response.redirectPostDetail 1 ∧
    (deletePost dbW (some 2) 1).snd = Response.permissionDenied ∧
    (editComment dbW (some 2) 1 3 id).snd = Response.redirectPostDetail 1 ∧
    (deleteComment dbW (some 2) 1 3).snd = Response.redirectPostDetail 1 :=
  c6_non_author_mutation_responses dbW 2 1 3 1 id id p1W c3W (by decide)
    (by decide) (by decide) (by decide)

/-- C7 counterexample: post 2 fails the public-visibility predicate and is
not authored by user 2, yet user 2's add-comment request on it creates a
comment and answers with a redirect, not HTTP 404. -/
theorem c7_counterexample :
    publiclyVisible dbW 50 p2W = false ∧ p2W.author_id ≠ 2 ∧
    postById dbW 2 = some p2W ∧
    (addComment dbW (some 2) 2 cFormW).fst.comments =
      dbW.comments ++ [{ cFormW with post_id := 2, author_id := 2 }] ∧
    (addComment dbW (some 2) 2 cFormW).snd = Response.redirectPostDetail 2 := by
  decide

/-- C7 amended: an add-comment request by an authenticated user creates a
comment on any post that exists, with no visibility check at all, and
redirects to the post's detail page; HTTP 404 arises exactly when no post
with the requested id exists. -/
theorem c7_comment_on_any_existing_post (db : DB) (r pid pid2 : Nat)
    (form : Comment) (post : Post)
    (hp : postById db pid = some post)
    (h2 : postById db pid2 = none) :
    (addComment db (some r) pid form).fst.comments =
      db.comments ++ [{ form with post_id := post.id, author_id := r }] ∧
    (addComment db (some r) pid form).snd = Response.redirectPostDetail pid ∧
    addComment db (some r) pid2 form = (db, Response.notFound) := by
  refine ⟨?_, ?_, ?_⟩ <;> simp [addComment, hp, h2]

/-- C7 witness: user 2 comments on the existing (hidden) post 2, which
succeeds; a request naming the absent post 99 answers 404 and changes
nothing. -/
theorem c7_witness :
    (addComment dbW (some 2) 2 cFormW).fst.comments =
      dbW.comments ++ [{ cFormW with post_id := p2W.id, author_id := 2 }] ∧
    (addComment dbW (some 2) 2 cFormW).snd = Response.redirectPostDetail 2 ∧
    addComment dbW (some 2) 99 cFormW = (dbW, Response.notFound) :=
  c7_comment_on_any_existing_post dbW 2 2 99 cFormW p2W (by decide) (by decide)

/-- C8: a request naming a post id with no post, a category slug with no
published category, or a username with no user answers HTTP 404
(`none`) from the post-detail, category and profile views respectively. -/
theorem c8_missing_records_are_404 (db : DB) (now : Nat) (r : Requester)
    (pid : Nat) (slug uname : String)
    (hpost : postById db pid = none)
    (hcat : ∀ cat ∈ db.categories, ¬(cat.slug = slug ∧ cat.is_published = true))
    (huser : userByUsername db uname = none) :
    postDetailGetObject db now r pid = none ∧
    categoryGetQueryset db now slug = none ∧
    profileGetQueryset db now r uname = none := by
  refine ⟨?_, ?_, ?_⟩
  · have hpost' : db.posts.find? (fun p => p.id == pid) = none := hpost
    simp [postDetailGetObject, get_post_queryset, hpost']
  · have : db.categories.find? (fun c => c.slug == slug && c.is_published) = none := by
      rw [List.find?_eq_none]
      intro cat hmem
      simp only [Bool.and_eq_true, beq_iff_eq]
      exact fun h => hcat cat hmem ⟨h.left, h.right⟩
    simp [categoryGetQueryset, this]
  · simp [profileGetQueryset, huser]

/-- C8 witness: post id 99 exists nowhere, slug "hidden" names only an
unpublished category, username "nobody" matches no user; all three views
answer 404 to user 2. -/
theorem c8_witness :
    postDetailGetObject dbW 50 (some 2) 99 = none ∧
    categoryGetQueryset dbW 50 "hidden" = none ∧
    profileGetQueryset dbW 50 (some 2) "nobody" = none :=
  c8_missing_records_are_404 dbW 50 (some 2) 99 "hidden" "nobody" (by decide)
    (by decide) (by decide)

/-- C9: create-post and add-comment force the stored object's author to the
requesting user: whatever author id the form data carries (`formPost` and
`formComment` are arbitrary), the appended row has `author_id = r`. -/
theorem c9_author_forced_to_requester (db : DB) (r pid : Nat)
    (formPost : Post) (formComment : Comment) (post : Post)
    (hp : postById db pid = some post) :
    (createPost db (some r) formPost).fst.posts =
      db.posts ++ [{ formPost with author_id := r }] ∧
    ({ formPost with author_id := r } : Post).author_id = r ∧
    (addComment db (some r) pid formComment).fst.comments =
      db.comments ++ [{ formComment with post_id := post.id, author_id := r }] ∧
    ({ formComment with post_id := post.id, author_id := r } : Comment).author_id = r := by
  refine ⟨?_, rfl, ?_, rfl⟩ <;> simp [createPost, addComment, hp]

/-- C9 witness: user 2 submits a post form and a comment form each carrying
author id 777; the stored rows carry author id 2. -/
theorem c9_witness :
    (createPost dbW (some 2) pFormW).fst.posts =
      dbW.posts ++ [{ pFormW with author_id := 2 }] ∧
    ({ pFormW with author_id := 2 } : Post).author_id = 2 ∧
    (addComment dbW (some 2) 1 cFormW).fst.comments =
      dbW.comments ++ [{ cFormW with post_id := p1W.id, author_id := 2 }] ∧
    ({ cFormW with post_id := p1W.id, author_id := 2 } : Comment).author_id = 2 :=
  c9_author_forced_to_requester dbW 2 1 pFormW cFormW p1W (by decide)

/-- C10: the profile page's `comment_count` equals the sum, over the
profiled user's posts, of the number of published comments on each post —
expressed with `countP` — and is `none` (Django's `None`), not `some 0`,
when the user has no posts. -/
theorem c10_comment_count_sum (db : DB) (u : User) :
    profileCommentCount db u =
      if db.posts.filter (fun p => p.author_id == u.id) = [] then none
      else some (((db.posts.filter (fun p => p.author_id == u.id)).map
        (fun p => db.comments.countP
          (fun c => c.post_id == p.id && c.is_published))).sum) := by
  have hcnt : ∀ p : Post,
      (db.comments.filter (fun a => a.is_published && a.post_id == p.id)).length =
      db.comments.countP (fun c => c.post_id == p.id && c.is_published) := by
    intro p
    rw [List.countP_eq_length_filter]
    congr 1
    exact List.filter_congr (fun a _ => by rw [Bool.and_comm])
  unfold profileCommentCount aggregateSum
  cases hfil : db.posts.filter (fun p => p.author_id == u.id) with
  | nil => simp
  | cons q qs =>
      simp only [List.map_cons, if_neg (by simp : ¬ (q :: qs : List Post) = [])]
      congr 1
      simp [hcnt]

end Blogicum
